import Mathlib

/-!
# Verification of the Zendesk dashboard aggregation engine

Shallow embedding of `src/update_dashboard.py` (the ticket aggregation
engine) and proofs of the specified properties.

Modelling conventions:
* Calendar dates are integers counting days since 2026-01-19, which is a
  Monday (`datetime.weekday()` gives Monday = 0, so `weekday d = d % 7`
  with a Monday epoch; the Python `%` on ints agrees with `Int.emod` for a
  positive modulus).  The beta release date 2026-01-21 is day 2 and the
  chart horizon end 2026-03-08 is day 48.
* Python `round(x, 1)` is modelled on `ℚ` with round-half-to-even ties,
  the Python rounding mode.
* JSON scalar values that can be absent, `null`, a number or a string
  (`ticket.get("group_id", "")`) are modelled by `Option PyVal`, with
  `Option.none` for an absent key; `pyStr` embeds Python `str()` on such
  values (`str(None) = "None"`).
* HTTP traffic is modelled by `HttpResponse`: a transport error (network
  failure / timeout / any exception raised by `requests.get`), or a
  status code together with an optional decoded JSON body (`none` models
  a body that fails to JSON-decode).  `requests.Response.raise_for_status`
  raises exactly for 4xx/5xx statuses, i.e. `400 ≤ code < 600`; any
  other surfaced status (1xx/3xx, or a non-standard code `≥ 600`) does
  not raise and its decoded body is returned.
* The unbounded `while True` pagination loop is embedded with an explicit
  fuel argument; every theorem about it supplies enough fuel for the
  scenario it describes.
* Entity-name resolution (`get_user_name` / `get_org_name`) is abstracted
  as function arguments: no verified claim concerns the lookup caches,
  only where the resolved names are placed.
-/

/-- A JSON scalar value as seen through Python `dict.get`. -/
inductive PyVal where
  | null : PyVal
  | int (n : Int) : PyVal
  | str (s : String) : PyVal
deriving DecidableEq, Repr

/-- Python `str()` applied to a scalar: `str(None) = "None"`. -/
def pyStr : PyVal → String
  | .null => "None"
  | .int n => Int.repr n
  | .str s => s

/-- A ticket as returned by the search endpoint.  Fields read through
`t.get(key, default)` with a meaningful default keep the `Option`;
`tags` is read only through `t.get("tags", [])`, so an absent key is
identified with the empty list. -/
structure Ticket where
  id : Option Nat
  subject : Option String
  tags : List String
  requester_id : Option Nat
  organization_id : Option Nat
  group_id : Option PyVal
  created_at : String
deriving DecidableEq, Repr

/-- A group record from `groups.json` (Zendesk group ids are numeric).
Named `ZendeskGroup` because `Group` is taken by Mathlib. -/
structure ZendeskGroup where
  name : String
  id : Nat
deriving DecidableEq, Repr

/-- Taxonomy `BETA_TAGS`, in its configured order. -/
def BETA_TAGS : List String := ["ux_assets", "ux_feedback", "ux_login", "ux_redirect"]

/-- Configured team names `TARGET_GROUPS`. -/
def TARGET_GROUPS : List String := ["Billing", "CX Success", "Distribution", "ENG - Support"]

/-- Outcome of one `requests.get` call: a transport-level failure (network
error, timeout, or any other exception raised before a response exists),
or a status code with the JSON body (`none` = JSON decode failure). -/
inductive HttpResponse (α : Type) where
  | transportError : HttpResponse α
  | status (code : Nat) (body : Option α) : HttpResponse α
deriving DecidableEq, Repr

/-- Embedding of `zendesk_request`: `response.raise_for_status()` raises
exactly for 4xx/5xx (`400 ≤ code < 600`, nothing above 599); that
exception, a transport error, and a JSON decode failure are all caught
by the `except` clause, which returns the empty dict `{}` (`emptyDict`
is the per-endpoint denotation of `{}`).  A surfaced status outside
that range with a decodable body is returned as the body. -/
def zendesk_request {α : Type} (emptyDict : α) : HttpResponse α → α
  | .transportError => emptyDict
  | .status code body =>
      if 400 ≤ code ∧ code < 600 then emptyDict
      else
        match body with
        | some v => v
        | none => emptyDict

/-- A request outcome that ends in the `except` branch of
`zendesk_request`: transport error, 4xx/5xx status (the only statuses
`raise_for_status` raises for), or undecodable body. -/
def request_failed {α : Type} : HttpResponse α → Prop
  | .transportError => True
  | .status code body => (400 ≤ code ∧ code < 600) ∨ body = Option.none

instance {α : Type} [DecidableEq α] (r : HttpResponse α) : Decidable (request_failed r) := by
  cases r with
  | transportError => exact isTrue trivial
  | status code body => exact inferInstanceAs (Decidable (_ ∨ _))

/-- Decoded body of the search endpoint; `results` is `none` when the
JSON object has no `results` key (in particular for the `{}` sentinel). -/
structure SearchBody where
  results : Option (List Ticket)
deriving DecidableEq, Repr

/-- The empty dict `{}` viewed as a search body. -/
def emptySearch : SearchBody := ⟨Option.none⟩

/-- Embedding of `result.get("results", [])`. -/
def getResults (b : SearchBody) : List Ticket := b.results.getD []

/-- The ticket list the pagination loop sees for one page: the page
response through `zendesk_request` and `result.get("results", [])`. -/
def page_results (api : Nat → HttpResponse SearchBody) (page : Nat) : List Ticket :=
  getResults (zendesk_request emptySearch (api page))

/-- The `while True` pagination loop of `fetch_tickets_for_range`
(lines 151–161): request page `page`, stop on an empty page, append,
stop when a page has fewer than 100 results, else continue with the next
page.  `fuel` bounds the number of iterations; the returned list is the
concatenation the loop accumulates in `all_tickets`. -/
def fetch_pages (api : Nat → HttpResponse SearchBody) : Nat → Nat → List Ticket
  | _, 0 => []
  | page, fuel + 1 =>
      let tickets := page_results api page
      if tickets = [] then []
      else if tickets.length < 100 then tickets
      else tickets ++ fetch_pages api (page + 1) fuel

/-- Embedding of `str(t.get("group_id", ""))`: an absent key yields `""`, a present
value goes through Python `str()`. -/
def group_id_str (t : Ticket) : String :=
  match t.group_id with
  | Option.none => ""
  | some v => pyStr v

/-- Embedding of `get_group_ids` (lines 78–94) applied to the decoded `groups` list:
the string ids of the groups whose name is configured, in upstream
order. -/
def get_group_ids (groups : List ZendeskGroup) : List String :=
  (groups.filter (fun g => g.name ∈ TARGET_GROUPS)).map (fun g => Nat.repr g.id)

/-- Embedding of `fetch_tickets_for_range` (lines 146–176): paginate, filter by target
groups (fail-open on an empty id set), then select the beta-tagged
subset.  Returns `(filtered_tickets, beta_tickets)`. -/
def fetch_tickets_for_range (api : Nat → HttpResponse SearchBody) (fuel : Nat)
    (group_ids : List String) : List Ticket × List Ticket :=
  let all_tickets := fetch_pages api 1 fuel
  let filtered_tickets :=
    if group_ids ≠ [] then
      all_tickets.filter (fun t => group_id_str t ∈ group_ids)
    else all_tickets
  let beta_tickets :=
    filtered_tickets.filter (fun t => BETA_TAGS.any (fun tag => tag ∈ t.tags))
  (filtered_tickets, beta_tickets)

/-! ## Dates and windows

Days are counted from 2026-01-19, a Monday, so `weekday d = d % 7` with
Monday = 0, as in `datetime.weekday()`. -/

/-- Embedding of `datetime.weekday()` under the Monday-aligned day count. -/
def weekday (d : Int) : Int := d % 7

/-- Release date constant `BETA_RELEASE_DATE = "2026-01-21"`, day 2. -/
def BETA_RELEASE_DATE : Int := 2

/-- The hard-coded horizon end `datetime(2026, 3, 8)`, day 48. -/
def CHART_END_DATE : Int := 48

/-- Embedding of `get_week_range` (lines 97–103): Monday of the current week through
today (day granularity; the time-of-day zeroing has no effect here). -/
def get_week_range (today : Int) : Int × Int :=
  (today - weekday today, today)

/-- Embedding of `get_alltime_range` (lines 106–109). -/
def get_alltime_range (today : Int) : Int × Int :=
  (BETA_RELEASE_DATE, today)

/-- One entry produced by `get_weekly_ranges`.  The source also emits a
`label` string (`strftime('%b %d')` of the start), elided here: no claim
concerns the label text, and it is a function of `start`. -/
structure WeekRange where
  start : Int
  end_ : Int
  is_future : Bool
deriving DecidableEq, Repr

/-- The `while current_monday <= end_date` loop of `get_weekly_ranges`
(lines 125–141).  The source also computes a `display_end` value
(cap the week at today), but never uses it: the appended entry records
`week_end` itself.  The dead computation is reproduced in the comment
below for reference:
`display_end = today if (week_end > today and current_monday <= today) else week_end`. -/
def weekly_loop (today end_date : Int) (current_monday : Int) : List WeekRange :=
  if current_monday ≤ end_date then
    let week_end := current_monday + 6
    { start := current_monday, end_ := week_end,
      is_future := decide (current_monday > today) }
      :: weekly_loop today end_date (current_monday + 7)
  else []
termination_by (end_date + 7 - current_monday).toNat
decreasing_by simp_wf; omega

/-- Embedding of `get_weekly_ranges` (lines 112–143): weekly windows from the Monday
on/before the beta release date through the horizon end. -/
def get_weekly_ranges (today : Int) : List WeekRange :=
  let beta_start := BETA_RELEASE_DATE
  let first_monday := beta_start - weekday beta_start
  weekly_loop today CHART_END_DATE first_monday

/-! ## Rounding

Python `round(x, 1)` rounds half to even. -/

/-- Round a rational to the nearest integer, ties to even. -/
def roundHalfEven (q : ℚ) : Int :=
  let f : Int := ⌊q⌋
  if q - f < 1/2 then f
  else if q - f > 1/2 then f + 1
  else if f % 2 = 0 then f else f + 1

/-- Python `round(x, 1)`. -/
def pyRound1 (q : ℚ) : ℚ := (roundHalfEven (q * 10) : ℚ) / 10

/-! ## Enrichment -/

/-- The dict built by `enrich_tickets` for each beta ticket.  The `url`
field (a constant prefix plus the id) is elided: no claim concerns it. -/
structure EnrichedTicket where
  id : Option Nat
  subject : String
  requester : String
  account : String
  beta_tags : List String
  all_tags : List String
  created : String
deriving DecidableEq, Repr

/-- Embedding of `enrich_tickets` (lines 179–195).  `resolveUser` and `resolveOrg`
abstract `get_user_name` / `get_org_name` (the memoised lookups are
orthogonal to every verified claim). -/
def enrich_tickets (resolveUser : Option Nat → String) (resolveOrg : Option Nat → String)
    (beta_tickets : List Ticket) : List EnrichedTicket :=
  beta_tickets.map (fun ticket =>
    let beta_tags_on_ticket := ticket.tags.filter (fun tag => tag ∈ BETA_TAGS)
    { id := ticket.id
      subject := ticket.subject.getD "No Subject"
      requester := resolveUser ticket.requester_id
      account := resolveOrg ticket.organization_id
      beta_tags := beta_tags_on_ticket
      all_tags := ticket.tags
      created := ticket.created_at.take 10 })

/-! ## Report assembly (`get_ticket_data`, lines 198–288) -/

/-- One element of the `weekly_data` list: `total`, `beta` and
`percentage` are `none` for a future placeholder week. -/
structure WeeklyDatum where
  start : Int
  end_ : Int
  total : Option Nat
  beta : Option Nat
  percentage : Option ℚ
deriving DecidableEq, Repr

/-- The `week` / `alltime` sections of the returned dict. -/
structure WindowReport where
  total : Nat
  beta : Nat
  percentage : ℚ
  start_date : Int
  end_date : Int
  beta_tickets : List EnrichedTicket
deriving DecidableEq, Repr

/-- The parts of the `get_ticket_data` result the claims concern.  The
`help_center_views` adjunct and the `updated` timestamp are elided. -/
structure ReportData where
  week : WindowReport
  alltime : WindowReport
  history : List WeeklyDatum
deriving DecidableEq, Repr

/-- Embedding of `get_ticket_data` (lines 198–288).  `api start end page` is the
search-endpoint response for the window query
`type:ticket created>=start created<=end` at the given page;
`fuel` bounds every pagination loop. -/
def get_ticket_data (api : Int → Int → Nat → HttpResponse SearchBody)
    (groups : List ZendeskGroup)
    (resolveUser resolveOrg : Option Nat → String)
    (today : Int) (fuel : Nat) : ReportData :=
  let group_ids := get_group_ids groups
  let wr := get_week_range today
  let week_fb := fetch_tickets_for_range (api wr.1 wr.2) fuel group_ids
  let week_beta_details := enrich_tickets resolveUser resolveOrg week_fb.2
  let ar := get_alltime_range today
  let alltime_fb := fetch_tickets_for_range (api ar.1 ar.2) fuel group_ids
  let alltime_beta_details := enrich_tickets resolveUser resolveOrg alltime_fb.2
  let weekly_ranges := get_weekly_ranges today
  let weekly_data := weekly_ranges.map (fun w =>
    if w.is_future then
      { start := w.start, end_ := w.end_,
        total := Option.none, beta := Option.none, percentage := Option.none }
    else
      let fb := fetch_tickets_for_range (api w.start w.end_) fuel group_ids
      let total := fb.1.length
      let beta_count := fb.2.length
      let pct := if total > 0 then pyRound1 ((beta_count : ℚ) / (total : ℚ) * 100) else 0
      { start := w.start, end_ := w.end_,
        total := some total, beta := some beta_count, percentage := some pct })
  let week_total := week_fb.1.length
  let week_beta_count := week_fb.2.length
  let alltime_total := alltime_fb.1.length
  let alltime_beta_count := alltime_fb.2.length
  { week :=
      { total := week_total
        beta := week_beta_count
        percentage :=
          if week_total > 0 then
            pyRound1 ((week_beta_count : ℚ) / (week_total : ℚ) * 100)
          else 0
        start_date := wr.1
        end_date := wr.2
        beta_tickets := week_beta_details }
    alltime :=
      { total := alltime_total
        beta := alltime_beta_count
        percentage :=
          if alltime_total > 0 then
            pyRound1 ((alltime_beta_count : ℚ) / (alltime_total : ℚ) * 100)
          else 0
        start_date := ar.1
        end_date := ar.2
        beta_tickets := alltime_beta_details }
    history := weekly_data }

/-- Modelled from the spec (§3 WindowMetrics, §8): the percentage formula
`round(matched_count / total_count * 100, 1)` if `total_count > 0`
else `0`, used to compare the three percentage computations of the code
against the words of the spec. -/
def spec_percentage (total_count matched_count : Nat) : ℚ :=
  if total_count > 0 then
    pyRound1 ((matched_count : ℚ) / (total_count : ℚ) * 100)
  else 0

/-! ## Concrete inputs used by witnesses -/

/-- A sample beta-tagged ticket with no group id. -/
def mockTicket : Ticket :=
  { id := some 1, subject := some "Login broken", tags := ["ux_login"],
    requester_id := Option.none, organization_id := Option.none,
    group_id := Option.none, created_at := "2026-01-21T09:00:00Z" }

/-- Mocked search endpoint: a full page 1 (100 tickets), then a short
page. -/
def api_full_then_short : Nat → HttpResponse SearchBody := fun p =>
  if p = 1 then .status 200 (some ⟨some (List.replicate 100 mockTicket)⟩)
  else .status 200 (some ⟨some [mockTicket]⟩)

/-- Mocked search endpoint: a full page 1 (100 tickets), then a network
failure on every later page. -/
def api_full_then_fail : Nat → HttpResponse SearchBody := fun p =>
  if p = 1 then .status 200 (some ⟨some (List.replicate 100 mockTicket)⟩)
  else .transportError

/-- Mocked search endpoint returning a single ungrouped ticket. -/
def api_one_ungrouped : Nat → HttpResponse SearchBody := fun _ =>
  .status 200 (some ⟨some [mockTicket]⟩)

/-- A ticket whose tags list the taxonomy tags in reverse order. -/
def ticket_login_assets : Ticket :=
  { id := some 2, subject := some "Feedback", tags := ["ux_login", "ux_assets"],
    requester_id := Option.none, organization_id := Option.none,
    group_id := Option.none, created_at := "2026-02-03T00:00:00Z" }

/-! ## Helper lemmas -/

/-- A failed request comes back from `zendesk_request` as the empty dict. -/
theorem zendesk_request_of_failed {α : Type} (emptyDict : α) (r : HttpResponse α)
    (h : request_failed r) : zendesk_request emptyDict r = emptyDict := by
  cases r with
  | transportError => rfl
  | status code body =>
      rcases h with h | h
      · simp [zendesk_request, if_pos h]
      · subst h
        simp [zendesk_request]

/-- A failed page request contributes no tickets to the loop. -/
theorem page_results_of_failed (api : Nat → HttpResponse SearchBody) (p : Nat)
    (h : request_failed (api p)) : page_results api p = [] := by
  unfold page_results
  rw [zendesk_request_of_failed _ _ h]
  rfl

/-- Core pagination lemma: if the `n` pages starting at `p` are full
(100 results each) and page `p + n` has fewer than 100 results, the loop
started at page `p` with at least `n + 1` units of fuel returns the
concatenation of those `n + 1` pages in order. -/
theorem fetch_pages_run (api : Nat → HttpResponse SearchBody) :
    ∀ (n p fuel : Nat),
      (∀ i, i < n → (page_results api (p + i)).length = 100) →
      (page_results api (p + n)).length < 100 →
      n + 1 ≤ fuel →
      fetch_pages api p fuel =
        ((List.range (n + 1)).map (fun i => page_results api (p + i))).join := by
  intro n
  induction n with
  | zero =>
      intro p fuel _ hlast hfuel
      obtain ⟨f, rfl⟩ : ∃ f, fuel = f + 1 := ⟨fuel - 1, by omega⟩
      simp only [Nat.add_zero] at hlast
      simp only [fetch_pages, List.range_succ, List.range_zero, List.nil_append,
        List.map_cons, List.map_nil, List.join_cons, List.join_nil,
        List.append_nil, Nat.add_zero]
      by_cases hnil : page_results api p = []
      · rw [if_pos hnil, hnil]
      · rw [if_neg hnil, if_pos hlast]
  | succ n ih =>
      intro p fuel hfull hlast hfuel
      obtain ⟨f, rfl⟩ : ∃ f, fuel = f + 1 := ⟨fuel - 1, by omega⟩
      have h0 : (page_results api p).length = 100 := by
        have := hfull 0 (by omega)
        simpa using this
      have hnil : ¬ page_results api p = [] := by
        intro h
        rw [h] at h0
        simp at h0
      have hrec : fetch_pages api p (f + 1) =
          page_results api p ++ fetch_pages api (p + 1) f := by
        simp only [fetch_pages]
        rw [if_neg hnil, if_neg (by omega : ¬ (page_results api p).length < 100)]
      have hfull' : ∀ i, i < n → (page_results api (p + 1 + i)).length = 100 := by
        intro i hi
        have := hfull (i + 1) (by omega)
        have harg : p + (i + 1) = p + 1 + i := by omega
        rwa [harg] at this
      have hlast' : (page_results api (p + 1 + n)).length < 100 := by
        have harg : p + (n + 1) = p + 1 + n := by omega
        rwa [harg] at hlast
      rw [hrec, ih (p + 1) f hfull' hlast' (by omega)]
      have hr : ((List.range (n + 1 + 1)).map (fun i => page_results api (p + i))).join
          = page_results api p ++
            ((List.range (n + 1)).map (fun i => page_results api (p + 1 + i))).join := by
        rw [List.range_succ_eq_map, List.map_cons, List.map_map]
        simp only [List.join, List.flatten_cons]
        congr 1
        congr 1
        apply List.map_congr_left
        intro i _
        simp only [Function.comp_apply]
        congr 1
        omega
      rw [hr]

/-- The seven windows of `get_weekly_ranges`, concretely: the horizon is
hard-coded, so only the `is_future` flags depend on today. -/
theorem get_weekly_ranges_eq (today : Int) :
    get_weekly_ranges today =
      [⟨0, 6, decide ((0 : Int) > today)⟩, ⟨7, 13, decide ((7 : Int) > today)⟩,
       ⟨14, 20, decide ((14 : Int) > today)⟩, ⟨21, 27, decide ((21 : Int) > today)⟩,
       ⟨28, 34, decide ((28 : Int) > today)⟩, ⟨35, 41, decide ((35 : Int) > today)⟩,
       ⟨42, 48, decide ((42 : Int) > today)⟩] := by
  have h0 : BETA_RELEASE_DATE - weekday BETA_RELEASE_DATE = 0 := by
    norm_num [BETA_RELEASE_DATE, weekday]
  show weekly_loop today CHART_END_DATE (BETA_RELEASE_DATE - weekday BETA_RELEASE_DATE) = _
  rw [h0]
  unfold CHART_END_DATE
  rw [weekly_loop]; norm_num
  rw [weekly_loop]; norm_num
  rw [weekly_loop]; norm_num
  rw [weekly_loop]; norm_num
  rw [weekly_loop]; norm_num
  rw [weekly_loop]; norm_num
  rw [weekly_loop]; norm_num
  rw [weekly_loop]; norm_num

/-- The history part of `get_ticket_data` is the pointwise image of the
weekly ranges. -/
theorem get_ticket_data_history (api : Int → Int → Nat → HttpResponse SearchBody)
    (groups : List ZendeskGroup) (resolveUser resolveOrg : Option Nat → String)
    (today : Int) (fuel : Nat) :
    (get_ticket_data api groups resolveUser resolveOrg today fuel).history =
      (get_weekly_ranges today).map (fun w =>
        if w.is_future then
          { start := w.start, end_ := w.end_,
            total := Option.none, beta := Option.none, percentage := Option.none }
        else
          let fb := fetch_tickets_for_range (api w.start w.end_) fuel (get_group_ids groups)
          { start := w.start, end_ := w.end_,
            total := some fb.1.length, beta := some fb.2.length,
            percentage :=
              some (if fb.1.length > 0 then
                      pyRound1 ((fb.2.length : ℚ) / (fb.1.length : ℚ) * 100)
                    else 0) }) := rfl

/-- Every character that `Nat.toDigitsCore` in base 10 prepends is a
decimal digit. -/
theorem toDigitsCore_isDigit :
    ∀ (fuel n : Nat) (acc : List Char), (∀ c ∈ acc, c.isDigit) →
      ∀ c ∈ Nat.toDigitsCore 10 fuel n acc, c.isDigit := by
  intro fuel
  induction fuel with
  | zero => intro n acc hacc; simpa [Nat.toDigitsCore] using hacc
  | succ f ih =>
      intro n acc hacc c hc
      have hd : (Nat.digitChar (n % 10)).isDigit := by
        have : n % 10 < 10 := Nat.mod_lt _ (by omega)
        interval_cases h : n % 10 <;> decide
      rw [Nat.toDigitsCore] at hc
      by_cases h10 : n / 10 = 0
      · rw [if_pos h10] at hc
        rcases List.mem_cons.mp hc with hc | hc
        · rw [hc]; exact hd
        · exact hacc c hc
      · rw [if_neg h10] at hc
        refine ih (n / 10) (Nat.digitChar (n % 10) :: acc) ?_ c hc
        intro d hd'
        rcases List.mem_cons.mp hd' with hd' | hd'
        · rw [hd']; exact hd
        · exact hacc d hd'

/-- Lemma: `Nat.toDigitsCore` never shrinks a nonempty accumulator to nil. -/
theorem toDigitsCore_ne_nil :
    ∀ (fuel n : Nat) (acc : List Char), acc ≠ [] →
      Nat.toDigitsCore 10 fuel n acc ≠ [] := by
  intro fuel
  induction fuel with
  | zero => intro n acc hacc; simpa [Nat.toDigitsCore] using hacc
  | succ f ih =>
      intro n acc hacc
      rw [Nat.toDigitsCore]
      by_cases h10 : n / 10 = 0
      · rw [if_pos h10]; simp
      · rw [if_neg h10]
        exact ih (n / 10) _ (by simp)

/-- Every character of `Nat.repr n` is a decimal digit. -/
theorem Nat_repr_isDigit (n : Nat) : ∀ c ∈ (Nat.repr n).data, c.isDigit := by
  intro c hc
  exact toDigitsCore_isDigit (n + 1) n [] (by simp) c hc

/-- Python `str()` of a numeric group id is never the empty string. -/
theorem Nat_repr_ne_empty (n : Nat) : Nat.repr n ≠ "" := by
  intro h
  have hne : Nat.toDigitsCore 10 (n + 1) n [] ≠ [] := by
    rw [Nat.toDigitsCore]
    by_cases h10 : n / 10 = 0
    · rw [if_pos h10]; simp
    · rw [if_neg h10]
      exact toDigitsCore_ne_nil n (n / 10) _ (by simp)
  have hdata : (Nat.repr n).data = Nat.toDigitsCore 10 (n + 1) n [] := rfl
  rw [h] at hdata
  exact hne hdata.symm

/-- Python `str()` of a numeric group id is never the string `"None"`. -/
theorem Nat_repr_ne_None (n : Nat) : Nat.repr n ≠ "None" := by
  intro h
  have : ('N' : Char).isDigit := by
    have hmem : 'N' ∈ (Nat.repr n).data := by
      rw [h]
      decide
    exact Nat_repr_isDigit n 'N' hmem
  exact absurd this (by decide)

/-! ## Claims -/

/-- C1 — Pagination completeness: for every window, the fetch loop
requests pages 1, 2, … with page size 100, appending each page of
results, stopping only on an empty or short page; if the API returns
exactly 100 results on each of the first `k` pages and fewer on page
`k + 1`, the result is the concatenation of all `k + 1` pages in order,
not just the first page. -/
theorem pagination_completeness (api : Nat → HttpResponse SearchBody) (k fuel : Nat)
    (hfull : ∀ p, 1 ≤ p → p ≤ k → (page_results api p).length = 100)
    (hlast : (page_results api (k + 1)).length < 100)
    (hfuel : k + 1 ≤ fuel) :
    fetch_pages api 1 fuel =
      ((List.range (k + 1)).map (fun i => page_results api (i + 1))).join := by
  have h := fetch_pages_run api k 1 fuel
    (fun i hi => hfull (1 + i) (by omega) (by omega))
    (by have harg : 1 + k = k + 1 := by omega
        rw [harg]; exact hlast)
    hfuel
  rw [h]
  congr 1
  apply List.map_congr_left
  intro i _
  congr 1
  omega

/-- Witness for C1 at `k = 1`: one full page then a short page. -/
theorem pagination_completeness_witness :
    (∀ p, 1 ≤ p → p ≤ 1 → (page_results api_full_then_short p).length = 100) ∧
    (page_results api_full_then_short 2).length < 100 ∧
    1 + 1 ≤ 2 ∧
    fetch_pages api_full_then_short 1 2 =
      ((List.range 2).map (fun i => page_results api_full_then_short (i + 1))).join :=
  ⟨fun p h1 h2 => by
      have hp : p = 1 := Nat.le_antisymm h2 h1
      subst hp; rfl,
   by decide, by decide,
   pagination_completeness api_full_then_short 1 2
     (fun p h1 h2 => by
       have hp : p = 1 := Nat.le_antisymm h2 h1
       subst hp; rfl)
     (by decide) (by decide)⟩

/-- C8 — Partial pagination failure keeps the prefix: if the first `k`
pages succeed with full pages and the request for page `k + 1` fails
(transport error, 4xx/5xx, or undecodable body), the loop returns
exactly the tickets of the first `k` pages — an undercount, not a
discard and not an exception. -/
theorem page_failure_keeps_fetched_pages (api : Nat → HttpResponse SearchBody) (k fuel : Nat)
    (hfull : ∀ p, 1 ≤ p → p ≤ k → (page_results api p).length = 100)
    (hfail : request_failed (api (k + 1)))
    (hfuel : k + 1 ≤ fuel) :
    fetch_pages api 1 fuel =
      ((List.range k).map (fun i => page_results api (i + 1))).join := by
  have hempty : page_results api (k + 1) = [] := page_results_of_failed api (k + 1) hfail
  have h := fetch_pages_run api k 1 fuel
    (fun i hi => hfull (1 + i) (by omega) (by omega))
    (by have harg : 1 + k = k + 1 := by omega
        rw [harg, hempty]; simp)
    hfuel
  rw [h, List.range_succ, List.map_append]
  simp only [List.join, List.flatten_append, List.map_cons, List.map_nil,
    List.flatten_cons, List.flatten_nil, List.append_nil]
  have h1k : 1 + k = k + 1 := by omega
  rw [h1k, hempty]
  simp only [List.append_nil]
  congr 1
  apply List.map_congr_left
  intro i _
  congr 1
  omega

/-- Witness for C8 at `k = 1`: one full page, then a network failure. -/
theorem page_failure_keeps_fetched_pages_witness :
    (∀ p, 1 ≤ p → p ≤ 1 → (page_results api_full_then_fail p).length = 100) ∧
    request_failed (api_full_then_fail 2) ∧
    1 + 1 ≤ 2 ∧
    fetch_pages api_full_then_fail 1 2 =
      ((List.range 1).map (fun i => page_results api_full_then_fail (i + 1))).join :=
  ⟨fun p h1 h2 => by
      have hp : p = 1 := Nat.le_antisymm h2 h1
      subst hp; rfl,
   by decide, by decide,
   page_failure_keeps_fetched_pages api_full_then_fail 1 2
     (fun p h1 h2 => by
       have hp : p = 1 := Nat.le_antisymm h2 h1
       subst hp; rfl)
     (by decide) (by decide)⟩

/-- C7 (counterexample) — the claim says every non-2xx status yields the
empty-result sentinel.  A 301 response whose body decodes fine is not in
the 4xx/5xx range `raise_for_status` raises for, so `zendesk_request`
returns the decoded body, not the sentinel. -/
theorem non_2xx_not_sentinel :
    (301 < 200 ∨ 299 < 301) ∧
    zendesk_request emptySearch
        (HttpResponse.status 301 (some ⟨some [mockTicket]⟩)) ≠ emptySearch := by
  exact ⟨by decide, by decide⟩

/-- C7 (amended) — API-client error containment: a transport error or
timeout, a 4xx/5xx status, or a JSON-decode failure makes
`zendesk_request` return the empty-dict sentinel (it is a total
function, so no exception escapes); consequently a window whose page
requests fail yields zero tickets instead of aborting the run. -/
theorem api_error_containment :
    (∀ (α : Type) (emptyDict : α) (resp : HttpResponse α),
       request_failed resp → zendesk_request emptyDict resp = emptyDict) ∧
    (∀ (api : Nat → HttpResponse SearchBody) (fuel : Nat) (gids : List String),
       request_failed (api 1) → fetch_tickets_for_range api fuel gids = ([], [])) := by
  constructor
  · intro α emptyDict resp h
    exact zendesk_request_of_failed emptyDict resp h
  · intro api fuel gids h
    have hempty : page_results api 1 = [] := page_results_of_failed api 1 h
    have hpages : fetch_pages api 1 fuel = [] := by
      cases fuel with
      | zero => rfl
      | succ f => simp [fetch_pages, hempty]
    simp [fetch_tickets_for_range, hpages]

/-- Witness for C7 (amended) at a concrete transport error. -/
theorem api_error_containment_witness :
    request_failed (HttpResponse.transportError : HttpResponse SearchBody) ∧
    zendesk_request emptySearch (HttpResponse.transportError : HttpResponse SearchBody) =
      emptySearch ∧
    fetch_tickets_for_range (fun _ => HttpResponse.transportError) 5 [] = ([], []) :=
  ⟨trivial,
   api_error_containment.1 SearchBody emptySearch HttpResponse.transportError trivial,
   api_error_containment.2 (fun _ => HttpResponse.transportError) 5 [] trivial⟩

/-- C6 — Group filter fail-open identity: if none of the configured team
names matched an upstream group, the resolved id list is empty, and an
empty id list makes the group filter a no-op, so the window total equals
the unfiltered fetch count. -/
theorem group_filter_fail_open :
    (∀ groups : List ZendeskGroup,
       (∀ g ∈ groups, g.name ∉ TARGET_GROUPS) → get_group_ids groups = []) ∧
    (∀ (api : Nat → HttpResponse SearchBody) (fuel : Nat),
       (fetch_tickets_for_range api fuel []).1 = fetch_pages api 1 fuel ∧
       (fetch_tickets_for_range api fuel []).1.length =
         (fetch_pages api 1 fuel).length) := by
  constructor
  · intro groups h
    unfold get_group_ids
    have hfil : groups.filter (fun g => g.name ∈ TARGET_GROUPS) = [] := by
      rw [List.filter_eq_nil]
      intro g hg
      simpa using h g hg
    rw [hfil]
    rfl
  · intro api fuel
    constructor <;> simp [fetch_tickets_for_range]

/-- Witness for C6: a single upstream group whose name is not
configured. -/
theorem group_filter_fail_open_witness :
    (∀ g ∈ [({ name := "Marketing", id := 7 } : ZendeskGroup)],
       g.name ∉ TARGET_GROUPS) ∧
    get_group_ids [{ name := "Marketing", id := 7 }] = [] ∧
    (fetch_tickets_for_range api_full_then_short 2 []).1 =
      fetch_pages api_full_then_short 1 2 :=
  ⟨by decide,
   group_filter_fail_open.1 [{ name := "Marketing", id := 7 }] (by decide),
   (group_filter_fail_open.2 api_full_then_short 2).1⟩

/-- C9 — Metrics bound invariant: in every window the aggregation
computes (week, all-time, and each non-future historical week),
`0 ≤ matched_count ≤ total_count`, because the beta-tagged list is a
sublist (a filter) of the group-filtered list whose length is the
total.  Counts are naturals, so `0 ≤` holds by type. -/
theorem metrics_bound_invariant (api : Int → Int → Nat → HttpResponse SearchBody)
    (groups : List ZendeskGroup) (resolveUser resolveOrg : Option Nat → String)
    (today : Int) (fuel : Nat) :
    (∀ (api' : Nat → HttpResponse SearchBody) (fuel' : Nat) (gids : List String),
       ((fetch_tickets_for_range api' fuel' gids).2).Sublist
         (fetch_tickets_for_range api' fuel' gids).1) ∧
    (get_ticket_data api groups resolveUser resolveOrg today fuel).week.beta ≤
      (get_ticket_data api groups resolveUser resolveOrg today fuel).week.total ∧
    (get_ticket_data api groups resolveUser resolveOrg today fuel).alltime.beta ≤
      (get_ticket_data api groups resolveUser resolveOrg today fuel).alltime.total ∧
    (∀ d ∈ (get_ticket_data api groups resolveUser resolveOrg today fuel).history,
       ∀ tc mc, d.total = some tc → d.beta = some mc → mc ≤ tc) := by
  refine ⟨?_, ?_, ?_, ?_⟩
  · intro api' fuel' gids
    exact List.filter_sublist _
  · exact List.length_filter_le _ _
  · exact List.length_filter_le _ _
  · intro d hd tc mc htc hmc
    rw [get_ticket_data_history] at hd
    obtain ⟨w, hw, rfl⟩ := List.mem_map.mp hd
    by_cases hf : w.is_future
    · rw [if_pos hf] at htc
      cases htc
    · rw [if_neg hf] at htc hmc
      simp only [Option.some_inj] at htc hmc
      subst htc; subst hmc
      exact List.length_filter_le _ _

/-- Witness for C9: a run with a failing API, every count zero. -/
theorem metrics_bound_invariant_witness :
    (⟨0, 6, some 0, some 0, some 0⟩ : WeeklyDatum) ∈
      (get_ticket_data (fun _ _ _ => HttpResponse.transportError) []
        (fun _ => "Unknown") (fun _ => "No Account") 100 1).history ∧
    (0 : Nat) ≤ 0 := by
  have hmem : (⟨0, 6, some 0, some 0, some 0⟩ : WeeklyDatum) ∈
      (get_ticket_data (fun _ _ _ => HttpResponse.transportError) []
        (fun _ => "Unknown") (fun _ => "No Account") 100 1).history := by
    rw [get_ticket_data_history, get_weekly_ranges_eq]
    simp [fetch_tickets_for_range, fetch_pages, page_results, zendesk_request,
      emptySearch, getResults, get_group_ids]
  exact ⟨hmem,
    (metrics_bound_invariant (fun _ _ _ => HttpResponse.transportError) []
      (fun _ => "Unknown") (fun _ => "No Account") 100 1).2.2.2
      ⟨0, 6, some 0, some 0, some 0⟩ hmem 0 0 rfl rfl⟩

/-- C10 — Ungrouped tickets are excluded by a non-empty group filter:
membership is string equality of `str(t.get("group_id", ""))` against
the resolved id strings; an absent key compares as `""`, a JSON `null`
as `"None"`, and neither is the decimal string of a numeric group id,
so such tickets never reach the filtered list that yields the window
total. -/
theorem ungrouped_tickets_excluded (groups : List ZendeskGroup)
    (api : Nat → HttpResponse SearchBody) (fuel : Nat) (t : Ticket)
    (hne : get_group_ids groups ≠ [])
    (hgid : t.group_id = Option.none ∨ t.group_id = some PyVal.null) :
    (t.group_id = Option.none → group_id_str t = "") ∧
    (t.group_id = some PyVal.null → group_id_str t = "None") ∧
    t ∉ (fetch_tickets_for_range api fuel (get_group_ids groups)).1 := by
  refine ⟨?_, ?_, ?_⟩
  · intro h; simp [group_id_str, h]
  · intro h; simp [group_id_str, h, pyStr]
  · intro hmem
    have h1 : (fetch_tickets_for_range api fuel (get_group_ids groups)).1 =
        (fetch_pages api 1 fuel).filter
          (fun t => group_id_str t ∈ get_group_ids groups) := by
      simp only [fetch_tickets_for_range, if_pos hne]
    rw [h1] at hmem
    have hin : group_id_str t ∈ get_group_ids groups := by
      have := List.mem_filter.mp hmem
      simpa using this.2
    have hstr : group_id_str t = "" ∨ group_id_str t = "None" := by
      rcases hgid with h | h
      · left; simp [group_id_str, h]
      · right; simp [group_id_str, h, pyStr]
    unfold get_group_ids at hin
    rw [List.mem_map] at hin
    obtain ⟨g, _, hgeq⟩ := hin
    rcases hstr with h | h
    · rw [h] at hgeq
      exact Nat_repr_ne_empty g.id hgeq
    · rw [h] at hgeq
      exact Nat_repr_ne_None g.id hgeq

/-- Witness for C10: a resolved group id `"123"`, and a ticket with no
`group_id` key. -/
theorem ungrouped_tickets_excluded_witness :
    get_group_ids [{ name := "Billing", id := 123 }] ≠ [] ∧
    (mockTicket.group_id = Option.none ∨ mockTicket.group_id = some PyVal.null) ∧
    mockTicket ∉ (fetch_tickets_for_range api_one_ungrouped 3
      (get_group_ids [{ name := "Billing", id := 123 }])).1 :=
  ⟨by decide, Or.inl rfl,
   (ungrouped_tickets_excluded [{ name := "Billing", id := 123 }]
     api_one_ungrouped 3 mockTicket (by decide) (Or.inl rfl)).2.2⟩

/-- C2 — Percentage semantics: each of the three reported percentages
(week, all-time, each non-future historical week) equals
`round(matched / total * 100, 1)` when `total > 0` and `0` when
`total = 0` (`spec_percentage` is that formula, taken from the spec);
in particular `total = 3, matched = 2` yields `66.7`. -/
theorem percentage_semantics (api : Int → Int → Nat → HttpResponse SearchBody)
    (groups : List ZendeskGroup) (resolveUser resolveOrg : Option Nat → String)
    (today : Int) (fuel : Nat) :
    (get_ticket_data api groups resolveUser resolveOrg today fuel).week.percentage =
      spec_percentage
        (get_ticket_data api groups resolveUser resolveOrg today fuel).week.total
        (get_ticket_data api groups resolveUser resolveOrg today fuel).week.beta ∧
    (get_ticket_data api groups resolveUser resolveOrg today fuel).alltime.percentage =
      spec_percentage
        (get_ticket_data api groups resolveUser resolveOrg today fuel).alltime.total
        (get_ticket_data api groups resolveUser resolveOrg today fuel).alltime.beta ∧
    (∀ d ∈ (get_ticket_data api groups resolveUser resolveOrg today fuel).history,
       ∀ tc mc, d.total = some tc → d.beta = some mc →
         d.percentage = some (spec_percentage tc mc)) ∧
    spec_percentage 3 2 = 667 / 10 ∧
    (∀ mc, spec_percentage 0 mc = 0) := by
  refine ⟨rfl, rfl, ?_, ?_, ?_⟩
  · intro d hd tc mc htc hmc
    rw [get_ticket_data_history] at hd
    obtain ⟨w, hw, rfl⟩ := List.mem_map.mp hd
    by_cases hf : w.is_future
    · rw [if_pos hf] at htc
      cases htc
    · rw [if_neg hf] at htc hmc ⊢
      simp only [Option.some_inj] at htc hmc
      subst htc; subst hmc
      rfl
  · norm_num [spec_percentage, pyRound1, roundHalfEven]
  · intro mc
    simp [spec_percentage]

/-- Witness for C2: a run with a failing API; the historical entry for
the first week carries `total = 0`, `beta = 0`, `percentage = 0`. -/
theorem percentage_semantics_witness :
    (⟨0, 6, some 0, some 0, some 0⟩ : WeeklyDatum) ∈
      (get_ticket_data (fun _ _ _ => HttpResponse.transportError) []
        (fun _ => "Unknown") (fun _ => "No Account") 100 1).history ∧
    (⟨0, 6, some 0, some 0, some 0⟩ : WeeklyDatum).percentage =
      some (spec_percentage 0 0) := by
  have hmem : (⟨0, 6, some 0, some 0, some 0⟩ : WeeklyDatum) ∈
      (get_ticket_data (fun _ _ _ => HttpResponse.transportError) []
        (fun _ => "Unknown") (fun _ => "No Account") 100 1).history := by
    rw [get_ticket_data_history, get_weekly_ranges_eq]
    simp [fetch_tickets_for_range, fetch_pages, page_results, zendesk_request,
      emptySearch, getResults, get_group_ids]
  exact ⟨hmem,
    (percentage_semantics (fun _ _ _ => HttpResponse.transportError) []
      (fun _ => "Unknown") (fun _ => "No Account") 100 1).2.2.1
      ⟨0, 6, some 0, some 0, some 0⟩ hmem 0 0 rfl rfl⟩

/-- C3 — Historical sequence invariant: the weekly windows start at the
Monday on/before the release date, run in consecutive 7-day
Monday-to-Sunday steps through the horizon end, oldest to newest with no
gaps or overlaps; the history list maps each window whose start is
strictly after today to a placeholder with `null` metrics (a constant,
so no fetch result enters it), and every other window to the fetched and
aggregated counts. -/
theorem weekly_history_structure (api : Int → Int → Nat → HttpResponse SearchBody)
    (groups : List ZendeskGroup) (resolveUser resolveOrg : Option Nat → String)
    (today : Int) (fuel : Nat) :
    get_weekly_ranges today ≠ [] ∧
    (∀ w0, (get_weekly_ranges today).head? = some w0 →
       weekday w0.start = 0 ∧ w0.start ≤ BETA_RELEASE_DATE ∧
       BETA_RELEASE_DATE < w0.start + 7) ∧
    (∀ w ∈ get_weekly_ranges today,
       weekday w.start = 0 ∧ w.end_ = w.start + 6 ∧
       (w.is_future = true ↔ w.start > today)) ∧
    (∀ i w w', (get_weekly_ranges today)[i]? = some w →
       (get_weekly_ranges today)[i + 1]? = some w' → w'.start = w.start + 7) ∧
    (∀ wl, (get_weekly_ranges today).getLast? = some wl →
       wl.start ≤ CHART_END_DATE ∧ CHART_END_DATE < wl.start + 7) ∧
    (get_ticket_data api groups resolveUser resolveOrg today fuel).history =
      (get_weekly_ranges today).map (fun w =>
        if w.start > today then
          { start := w.start, end_ := w.end_,
            total := Option.none, beta := Option.none, percentage := Option.none }
        else
          { start := w.start, end_ := w.end_,
            total := some (fetch_tickets_for_range (api w.start w.end_) fuel
              (get_group_ids groups)).1.length,
            beta := some (fetch_tickets_for_range (api w.start w.end_) fuel
              (get_group_ids groups)).2.length,
            percentage := some (spec_percentage
              (fetch_tickets_for_range (api w.start w.end_) fuel
                (get_group_ids groups)).1.length
              (fetch_tickets_for_range (api w.start w.end_) fuel
                (get_group_ids groups)).2.length) }) := by
  refine ⟨?_, ?_, ?_, ?_, ?_, ?_⟩
  · rw [get_weekly_ranges_eq]; simp
  · intro w0 h
    rw [get_weekly_ranges_eq] at h
    simp only [List.head?_cons, Option.some_inj] at h
    subst h
    norm_num [weekday, BETA_RELEASE_DATE]
  · intro w hw
    rw [get_weekly_ranges_eq] at hw
    fin_cases hw <;>
      refine ⟨by norm_num [weekday], by norm_num, by simp [decide_eq_true_eq]⟩
  · intro i w w' h h'
    rw [get_weekly_ranges_eq] at h h'
    rcases i with _ | _ | _ | _ | _ | _ | _ | i <;> simp_all <;>
      (subst h; subst h'; norm_num)
  · intro wl h
    rw [get_weekly_ranges_eq] at h
    simp only [List.getLast?] at h
    simp only [Option.some_inj] at h
    subst h
    norm_num [CHART_END_DATE]
  · rw [get_ticket_data_history]
    apply List.map_congr_left
    intro w hw
    have hif : w.is_future = decide (w.start > today) := by
      rw [get_weekly_ranges_eq] at hw
      fin_cases hw <;> rfl
    by_cases hp : w.start > today
    · rw [if_pos (by rw [hif]; exact decide_eq_true hp), if_pos hp]
    · rw [if_neg (by rw [hif]; simpa using hp), if_neg hp]
      rfl

/-- Witness for C3 at `today = 2` (2026-01-21): the first two windows
are consecutive Mondays seven days apart. -/
theorem weekly_history_structure_witness :
    (get_weekly_ranges 2)[0]? = some ⟨0, 6, false⟩ ∧
    (get_weekly_ranges 2)[1]? = some ⟨7, 13, true⟩ ∧
    (⟨7, 13, true⟩ : WeekRange).start = (⟨0, 6, false⟩ : WeekRange).start + 7 := by
  have h0 : (get_weekly_ranges 2)[0]? = some ⟨0, 6, false⟩ := by
    rw [get_weekly_ranges_eq]; simp
  have h1 : (get_weekly_ranges 2)[1]? = some ⟨7, 13, true⟩ := by
    rw [get_weekly_ranges_eq]; simp
  exact ⟨h0, h1,
    (weekly_history_structure (fun _ _ _ => HttpResponse.transportError) []
      (fun _ => "Unknown") (fun _ => "No Account") 2 1).2.2.2.1 0 _ _ h0 h1⟩

/-- C4 (code evaluation) — the recorded window ends are never truncated:
at `today = 2` (2026-01-21, the release date) the first window is real
(`is_future = false`) yet its recorded end is day 6 (2026-01-25), which
exceeds today.  The source computes the capped `display_end` but never
uses it, so the emitted `end` is always `start + 6`. -/
theorem weekly_ranges_no_truncation :
    get_weekly_ranges 2 =
      [⟨0, 6, false⟩, ⟨7, 13, true⟩, ⟨14, 20, true⟩, ⟨21, 27, true⟩,
       ⟨28, 34, true⟩, ⟨35, 41, true⟩, ⟨42, 48, true⟩] ∧
    ¬ ((6 : Int) ≤ 2) := by
  refine ⟨?_, by decide⟩
  rw [get_weekly_ranges_eq]
  simp

/-- C5 (counterexample) — the claim says the matched tags of a ticket
tagged `["ux_login", "ux_assets"]` come out in taxonomy order
`["ux_assets", "ux_login"]`; the code iterates over the ticket own
tag list, so they come out in ticket order. -/
theorem tag_order_counterexample :
    (enrich_tickets (fun _ => "Unknown") (fun _ => "No Account")
        [ticket_login_assets]).map (fun e => e.beta_tags) =
      [["ux_login", "ux_assets"]] ∧
    (["ux_login", "ux_assets"] : List String) ≠ ["ux_assets", "ux_login"] := by
  exact ⟨by decide, by decide⟩

/-- C5 (amended) — Tag classification order: the extracted matching-tags
list of every matched ticket preserves the original ticket tag order
(it is the sublist of the ticket tags that belong to the taxonomy);
the example ticket yields `["ux_login", "ux_assets"]`. -/
theorem tag_extraction_ticket_order (resolveUser resolveOrg : Option Nat → String)
    (tickets : List Ticket) :
    (enrich_tickets resolveUser resolveOrg tickets).map (fun e => e.beta_tags) =
      tickets.map (fun t => t.tags.filter (fun tag => tag ∈ BETA_TAGS)) ∧
    (∀ e ∈ enrich_tickets resolveUser resolveOrg tickets,
       e.beta_tags.Sublist e.all_tags ∧ ∀ tag ∈ e.beta_tags, tag ∈ BETA_TAGS) := by
  constructor
  · simp [enrich_tickets]
  · intro e he
    rw [enrich_tickets, List.mem_map] at he
    obtain ⟨t, _, rfl⟩ := he
    refine ⟨List.filter_sublist _, ?_⟩
    intro tag htag
    have := List.mem_filter.mp htag
    simpa using this.2

/-- Witness for C5 (amended) on the example ticket. -/
theorem tag_extraction_ticket_order_witness :
    ([ticket_login_assets].map (fun t => t.tags.filter (fun tag => tag ∈ BETA_TAGS)) =
      [["ux_login", "ux_assets"]]) ∧
    (enrich_tickets (fun _ => "Unknown") (fun _ => "No Account")
        [ticket_login_assets]).map (fun e => e.beta_tags) =
      [["ux_login", "ux_assets"]] := by
  refine ⟨by decide, ?_⟩
  rw [(tag_extraction_ticket_order (fun _ => "Unknown") (fun _ => "No Account")
    [ticket_login_assets]).1]
  decide
